import Mathlib

/-!
Verification development for the per-frame rendering orchestrator in
src/main.py (Tellusim Python binding sample).

The frame loop (function main_loop of main.py, lines 344-491) is embedded
as a pure function from an environment of per-frame collaborator outcomes
to a trace of observable calls plus the boolean the callback returns.
Every fallible library call of the source (window.render, render_frame.create,
scene.create, scene_manager.update, target.begin, window.present,
device.check) is an oracle field of the environment; every observable call
of the source becomes one trace event, emitted in source order.

The streaming worker (process_callback, lines 272-278), the shutdown
sequence of main (lines 495-510), the mesh construction (create_mesh,
lines 34-92) and the procedural image (create_image, lines 97-116) are
embedded separately below.
-/

/-- Observable calls issued by one iteration of main_loop, in the order the
source issues them.  Events carry the integer arguments that matter to the
properties under study (frame dimensions, UI viewport size). -/
inductive Event where
  | windowUpdate
  | windowRender
  | renderManagerUpdate
  | frameCreate (w h : Nat)
  | logResized (w h : Nat)
  | textureUpdate
  | graphUpdate
  | sceneCreate
  | sceneUpdate
  | managerUpdate
  | managerDispatch
  | sceneDispatch
  | dispatchFrames
  | dispatchObjects
  | rendererFrames
  | managerFlush
  | renderManagerFlush
  | frameFlush
  | drawDeferred
  | dispatchLight
  | dispatchOccluder
  | dispatchLuminance
  | dispatchComposite
  | uiViewport (w h : Nat)
  | canvasCreate
  | targetBegin
  | drawBackground
  | drawCanvas
  | targetEnd
  | windowPresent
  | deviceCheck
  deriving DecidableEq, Repr

/-- Per-frame environment: the values and results the collaborators of
main_loop return this iteration.  Boolean fields are the results of the
fallible calls of the source, Nat fields are the window, frame and UI
dimensions the source reads. -/
structure Env where
  windowRenderOk : Bool
  frameWidth : Nat
  frameHeight : Nat
  windowWidth : Nat
  windowHeight : Nat
  frameCreateOk : Bool
  textureDue : Bool
  sceneCreateOk : Bool
  managerUpdateOk : Bool
  appHeight : Nat
  targetBeginOk : Bool
  presentOk : Bool
  deviceCheckOk : Bool
  deriving DecidableEq, Repr

/-- Result of one main_loop iteration: the trace of issued calls, the
boolean returned to window.run, and the frame target dimensions after the
iteration. -/
structure LoopResult where
  trace : List Event
  ok : Bool
  frameWidth : Nat
  frameHeight : Nat
  deriving DecidableEq, Repr

/-- Diffuse texture update block (main.py lines 367-372): executed only
when the texture timer elapsed. -/
def texture_events (e : Env) : List Event :=
  if e.textureDue then [Event.textureUpdate] else []

/-- Continuation of main_loop after the resize check, from the texture
update (line 367) to the device check (line 489).  The accumulated trace t
and the current frame dimensions fw, fh are threaded through. -/
def loop_after_resize (e : Env) (t : List Event) (fw fh : Nat) : LoopResult :=
  let t := t ++ texture_events e ++ [Event.graphUpdate]
  let t := t ++ [Event.sceneCreate]
  if !e.sceneCreateOk then ⟨t, false, fw, fh⟩ else
  let t := t ++ [Event.sceneUpdate]
  let t := t ++ [Event.managerUpdate]
  if !e.managerUpdateOk then ⟨t, false, fw, fh⟩ else
  let t := t ++ [Event.managerDispatch, Event.sceneDispatch, Event.dispatchFrames,
                 Event.dispatchObjects, Event.rendererFrames]
  let t := t ++ [Event.managerFlush, Event.renderManagerFlush, Event.frameFlush,
                 Event.drawDeferred]
  let t := t ++ [Event.dispatchLight, Event.dispatchOccluder, Event.dispatchLuminance,
                 Event.dispatchComposite]
  let width := e.appHeight * e.windowWidth / e.windowHeight
  let t := t ++ [Event.uiViewport width e.appHeight, Event.canvasCreate]
  let t := t ++ [Event.targetBegin] ++
    (if e.targetBeginOk then [Event.drawBackground, Event.drawCanvas, Event.targetEnd] else [])
  let t := t ++ [Event.windowPresent]
  if !e.presentOk then ⟨t, false, fw, fh⟩ else
  let t := t ++ [Event.deviceCheck]
  if !e.deviceCheckOk then ⟨t, false, fw, fh⟩ else ⟨t, true, fw, fh⟩

/-- One iteration of main_loop (main.py lines 344-491).  Mirrors the
source: Window.update, window.render with early False return, render
manager update, the resize check and conditional frame target recreation
with its log line, then the remaining phases via loop_after_resize. -/
def main_loop (e : Env) : LoopResult :=
  let t := [Event.windowUpdate, Event.windowRender]
  if !e.windowRenderOk then ⟨t, false, e.frameWidth, e.frameHeight⟩ else
  let t := t ++ [Event.renderManagerUpdate]
  if e.frameWidth != e.windowWidth || e.frameHeight != e.windowHeight then
    let t := t ++ [Event.frameCreate e.windowWidth e.windowHeight]
    if !e.frameCreateOk then ⟨t, false, e.frameWidth, e.frameHeight⟩ else
    loop_after_resize e (t ++ [Event.logResized e.windowWidth e.windowHeight])
      e.windowWidth e.windowHeight
  else
    loop_after_resize e t e.frameWidth e.frameHeight

/-- Modelled from the spec: Window.run of the binding library is not under
src.  Per spec sections 6 and 8 (a failed health check ends the loop; a
device check failure causes loop exit with no further Present calls) and
the stop mechanism of the source (window.stop makes window.render return
false, which is the only path out of a run loop), window.run calls the
frame callback repeatedly and ends the loop as soon as the callback
returns false.  The list argument supplies the environment of each
successive iteration; the result is the trace of every executed
iteration. -/
def window_run : List Env → List (List Event)
  | [] => []
  | e :: rest =>
    let r := main_loop e
    r.trace :: (if r.ok then window_run rest else [])

/-- Events of the resize block (main.py lines 362-364) as they appear in a
trace of a frame whose fallible calls all succeed. -/
def resize_events (e : Env) : List Event :=
  if e.frameWidth != e.windowWidth || e.frameHeight != e.windowHeight then
    [Event.frameCreate e.windowWidth e.windowHeight,
     Event.logResized e.windowWidth e.windowHeight]
  else []

/-- Events of the window target block (main.py lines 458-483) that are
conditional on target.begin succeeding. -/
def drawing_events (e : Env) : List Event :=
  if e.targetBeginOk then [Event.drawBackground, Event.drawCanvas, Event.targetEnd] else []

/-- Events after the present call: the device check runs only when
window.present succeeded (main.py lines 486-489). -/
def present_events (e : Env) : List Event :=
  if e.presentOk then [Event.deviceCheck] else []

/-- Full trace of a frame that passes window.render, the resize check,
scene.create and scene_manager.update. -/
def ok_trace (e : Env) : List Event :=
  [Event.windowUpdate, Event.windowRender, Event.renderManagerUpdate] ++
  resize_events e ++ texture_events e ++
  [Event.graphUpdate, Event.sceneCreate, Event.sceneUpdate, Event.managerUpdate,
   Event.managerDispatch, Event.sceneDispatch, Event.dispatchFrames,
   Event.dispatchObjects, Event.rendererFrames,
   Event.managerFlush, Event.renderManagerFlush, Event.frameFlush, Event.drawDeferred,
   Event.dispatchLight, Event.dispatchOccluder, Event.dispatchLuminance,
   Event.dispatchComposite,
   Event.uiViewport (e.appHeight * e.windowWidth / e.windowHeight) e.appHeight,
   Event.canvasCreate, Event.targetBegin] ++
  drawing_events e ++ [Event.windowPresent] ++ present_events e

theorem loop_after_resize_trace (e : Env)
    (hs : e.sceneCreateOk = true) (hm : e.managerUpdateOk = true)
    (t : List Event) (fw fh : Nat) :
    (loop_after_resize e t fw fh).trace =
      t ++ texture_events e ++
      [Event.graphUpdate, Event.sceneCreate, Event.sceneUpdate, Event.managerUpdate,
       Event.managerDispatch, Event.sceneDispatch, Event.dispatchFrames,
       Event.dispatchObjects, Event.rendererFrames,
       Event.managerFlush, Event.renderManagerFlush, Event.frameFlush, Event.drawDeferred,
       Event.dispatchLight, Event.dispatchOccluder, Event.dispatchLuminance,
       Event.dispatchComposite,
       Event.uiViewport (e.appHeight * e.windowWidth / e.windowHeight) e.appHeight,
       Event.canvasCreate, Event.targetBegin] ++
      drawing_events e ++ [Event.windowPresent] ++ present_events e := by
  unfold loop_after_resize drawing_events present_events
  rw [hs, hm]
  by_cases hp : e.presentOk = true
  · by_cases hd : e.deviceCheckOk = true
    · simp [hp, hd]
    · simp [hp, Bool.not_eq_true] at *
      simp [hp, hd]
  · simp [Bool.not_eq_true] at hp
    simp [hp]

theorem main_loop_trace (e : Env)
    (hw : e.windowRenderOk = true)
    (hf : e.frameWidth ≠ e.windowWidth ∨ e.frameHeight ≠ e.windowHeight → e.frameCreateOk = true)
    (hs : e.sceneCreateOk = true) (hm : e.managerUpdateOk = true) :
    (main_loop e).trace = ok_trace e := by
  by_cases hr : (e.frameWidth != e.windowWidth || e.frameHeight != e.windowHeight) = true
  · have hc : e.frameCreateOk = true := hf (by simpa [bne_iff_ne] using hr)
    simp [main_loop, ok_trace, resize_events, hw, hr, hc, loop_after_resize_trace e hs hm]
  · simp only [Bool.not_eq_true] at hr
    simp [main_loop, ok_trace, resize_events, hw, hr, loop_after_resize_trace e hs hm]

theorem loop_after_resize_ok (e : Env) (t : List Event) (fw fh : Nat) :
    (loop_after_resize e t fw fh).ok =
      (e.sceneCreateOk && e.managerUpdateOk && e.presentOk && e.deviceCheckOk) := by
  unfold loop_after_resize
  cases hs : e.sceneCreateOk <;> cases hm : e.managerUpdateOk <;>
    cases hp : e.presentOk <;> cases hd : e.deviceCheckOk <;> simp

theorem loop_after_resize_dims (e : Env) (t : List Event) (fw fh : Nat) :
    (loop_after_resize e t fw fh).frameWidth = fw ∧
    (loop_after_resize e t fw fh).frameHeight = fh := by
  unfold loop_after_resize
  cases hs : e.sceneCreateOk <;> cases hm : e.managerUpdateOk <;>
    cases hp : e.presentOk <;> cases hd : e.deviceCheckOk <;> simp

theorem main_loop_ok (e : Env) :
    (main_loop e).ok = (e.windowRenderOk &&
      (!(e.frameWidth != e.windowWidth || e.frameHeight != e.windowHeight) || e.frameCreateOk) &&
      (e.sceneCreateOk && e.managerUpdateOk && e.presentOk && e.deviceCheckOk)) := by
  unfold main_loop
  cases hw : e.windowRenderOk <;>
    cases hr : (e.frameWidth != e.windowWidth || e.frameHeight != e.windowHeight) <;>
      cases hc : e.frameCreateOk <;> simp [hr, loop_after_resize_ok]

theorem frameCreate_mem_loop_after_resize (w h : Nat) (e : Env) (t : List Event) (fw fh : Nat) :
    Event.frameCreate w h ∈ (loop_after_resize e t fw fh).trace ↔
      Event.frameCreate w h ∈ t := by
  unfold loop_after_resize texture_events
  split_ifs <;> simp_all

theorem logResized_mem_loop_after_resize (w h : Nat) (e : Env) (t : List Event) (fw fh : Nat) :
    Event.logResized w h ∈ (loop_after_resize e t fw fh).trace ↔
      Event.logResized w h ∈ t := by
  unfold loop_after_resize texture_events
  split_ifs <;> simp_all

theorem windowPresent_mem_loop_after_resize (e : Env) (t : List Event) (fw fh : Nat)
    (ht : Event.windowPresent ∉ t) :
    (Event.windowPresent ∈ (loop_after_resize e t fw fh).trace ↔
      (e.sceneCreateOk = true ∧ e.managerUpdateOk = true)) := by
  unfold loop_after_resize texture_events
  split_ifs <;> simp_all

theorem windowPresent_mem_main_loop (e : Env) :
    Event.windowPresent ∈ (main_loop e).trace ↔
      (e.windowRenderOk = true ∧
       ((e.frameWidth != e.windowWidth || e.frameHeight != e.windowHeight) = true →
         e.frameCreateOk = true) ∧
       (e.sceneCreateOk = true ∧ e.managerUpdateOk = true)) := by
  unfold main_loop
  cases hw : e.windowRenderOk <;>
    by_cases hr : (e.frameWidth != e.windowWidth || e.frameHeight != e.windowHeight) = true <;>
      cases hc : e.frameCreateOk <;>
        simp [hr, windowPresent_mem_loop_after_resize]

/-- Phases of the frame state machine named by the specification. -/
inductive Phase where
  | update
  | earlyDispatch
  | deferredDraw
  | lateDispatch
  | uiUpdate
  | present
  deriving DecidableEq, Repr

/-- Classification of trace events into the phases of the specification.
Window.update, window.render (the PresentPoll step preceding the listed
sequence) and the trailing device check are unclassified. -/
def phaseOf : Event → Option Phase
  | .windowUpdate => none
  | .windowRender => none
  | .renderManagerUpdate => some .update
  | .frameCreate _ _ => some .update
  | .logResized _ _ => some .update
  | .textureUpdate => some .update
  | .graphUpdate => some .update
  | .sceneCreate => some .update
  | .sceneUpdate => some .update
  | .managerUpdate => some .update
  | .managerDispatch => some .earlyDispatch
  | .sceneDispatch => some .earlyDispatch
  | .dispatchFrames => some .earlyDispatch
  | .dispatchObjects => some .earlyDispatch
  | .rendererFrames => some .earlyDispatch
  | .managerFlush => some .deferredDraw
  | .renderManagerFlush => some .deferredDraw
  | .frameFlush => some .deferredDraw
  | .drawDeferred => some .deferredDraw
  | .dispatchLight => some .lateDispatch
  | .dispatchOccluder => some .lateDispatch
  | .dispatchLuminance => some .lateDispatch
  | .dispatchComposite => some .lateDispatch
  | .uiViewport _ _ => some .uiUpdate
  | .canvasCreate => some .uiUpdate
  | .targetBegin => some .uiUpdate
  | .drawBackground => some .uiUpdate
  | .drawCanvas => some .uiUpdate
  | .targetEnd => some .uiUpdate
  | .windowPresent => some .present
  | .deviceCheck => none

/-- Collapse adjacent equal phases, so that a trace visiting each phase as
one contiguous run maps to the list of phases in visiting order. -/
def collapse : List Phase → List Phase
  | [] => []
  | [p] => [p]
  | p :: q :: r => if p = q then collapse (q :: r) else p :: collapse (q :: r)

/-- Recogniser for the four late compute dispatch calls
(main.py lines 423-426). -/
def is_late_dispatch : Event → Bool
  | .dispatchLight => true
  | .dispatchOccluder => true
  | .dispatchLuminance => true
  | .dispatchComposite => true
  | _ => false

/-- C2: in a frame whose fallible calls all succeed, the classified events
of the trace form exactly one contiguous run per phase, in the order
update, early dispatch, deferred draw, late dispatch, UI update,
present. -/
theorem phase_order (e : Env)
    (hw : e.windowRenderOk = true)
    (hf : e.frameWidth ≠ e.windowWidth ∨ e.frameHeight ≠ e.windowHeight → e.frameCreateOk = true)
    (hs : e.sceneCreateOk = true) (hm : e.managerUpdateOk = true)
    (hp : e.presentOk = true) (hd : e.deviceCheckOk = true) :
    collapse ((main_loop e).trace.filterMap phaseOf) =
      [Phase.update, Phase.earlyDispatch, Phase.deferredDraw, Phase.lateDispatch,
       Phase.uiUpdate, Phase.present] := by
  rw [main_loop_trace e hw hf hs hm]
  unfold ok_trace resize_events texture_events drawing_events present_events
  split_ifs <;> rfl

/-- C2 witness at a concrete no-resize frame with every call succeeding. -/
def env_ok : Env :=
  { windowRenderOk := true, frameWidth := 800, frameHeight := 600,
    windowWidth := 800, windowHeight := 600, frameCreateOk := true,
    textureDue := false, sceneCreateOk := true, managerUpdateOk := true,
    appHeight := 900, targetBeginOk := true, presentOk := true,
    deviceCheckOk := true }

theorem phase_order_witness :
    collapse ((main_loop env_ok).trace.filterMap phaseOf) =
      [Phase.update, Phase.earlyDispatch, Phase.deferredDraw, Phase.lateDispatch,
       Phase.uiUpdate, Phase.present] :=
  phase_order env_ok rfl (fun h => by revert h; decide) rfl rfl rfl rfl

/-- C3: in every frame that reaches the dispatch stage, the late dispatch
group is exactly lighting, occlusion, luminance, composite, in that
order. -/
theorem late_dispatch_order (e : Env)
    (hw : e.windowRenderOk = true)
    (hf : e.frameWidth ≠ e.windowWidth ∨ e.frameHeight ≠ e.windowHeight → e.frameCreateOk = true)
    (hs : e.sceneCreateOk = true) (hm : e.managerUpdateOk = true) :
    (main_loop e).trace.filter is_late_dispatch =
      [Event.dispatchLight, Event.dispatchOccluder, Event.dispatchLuminance,
       Event.dispatchComposite] := by
  rw [main_loop_trace e hw hf hs hm]
  unfold ok_trace resize_events texture_events drawing_events present_events
  split_ifs <;> rfl

theorem late_dispatch_order_witness :
    (main_loop env_ok).trace.filter is_late_dispatch =
      [Event.dispatchLight, Event.dispatchOccluder, Event.dispatchLuminance,
       Event.dispatchComposite] :=
  late_dispatch_order env_ok rfl (fun h => by revert h; decide) rfl rfl

/-- C4: the UI viewport width set during the interface update equals the
floor of appHeight * windowWidth / windowHeight (main.py lines 434-435,
natural division being the floor of exact rational division). -/
theorem ui_width_floor (e : Env)
    (hw : e.windowRenderOk = true)
    (hf : e.frameWidth ≠ e.windowWidth ∨ e.frameHeight ≠ e.windowHeight → e.frameCreateOk = true)
    (hs : e.sceneCreateOk = true) (hm : e.managerUpdateOk = true)
    (hh : 0 < e.windowHeight) :
    Event.uiViewport (e.appHeight * e.windowWidth / e.windowHeight) e.appHeight ∈
      (main_loop e).trace ∧
    e.appHeight * e.windowWidth / e.windowHeight =
      ⌊((e.appHeight : ℚ) * (e.windowWidth : ℚ) / (e.windowHeight : ℚ))⌋₊ := by
  constructor
  · rw [main_loop_trace e hw hf hs hm]
    simp [ok_trace]
  · have h := Nat.floor_div_nat (α := ℚ) ((e.appHeight : ℚ) * (e.windowWidth : ℚ)) e.windowHeight
    rw [← Nat.cast_mul, Nat.floor_natCast] at h
    exact_mod_cast h.symm

/-- C4 witness frames: 1920x1080 window with UI height 1080, and 1280x720
window with UI height 900. -/
def env_1920 : Env :=
  { env_ok with frameWidth := 1920, frameHeight := 1080,
                windowWidth := 1920, windowHeight := 1080, appHeight := 1080 }

def env_1280 : Env :=
  { env_ok with frameWidth := 1280, frameHeight := 720,
                windowWidth := 1280, windowHeight := 720, appHeight := 900 }

theorem ui_width_floor_witness :
    Event.uiViewport 1920 1080 ∈ (main_loop env_1920).trace ∧
    Event.uiViewport 1600 900 ∈ (main_loop env_1280).trace :=
  ⟨(ui_width_floor env_1920 rfl (fun h => by revert h; decide) rfl rfl (by decide)).1,
   (ui_width_floor env_1280 rfl (fun h => by revert h; decide) rfl rfl (by decide)).1⟩

/-- C6: the frame target is recreated exactly when its dimensions differ
from the window dimensions; a frame with unchanged dimensions keeps its
target untouched; a recreation logs the new dimensions, and a successful
recreation leaves the target at exactly the window dimensions. -/
theorem frame_target_resize_contract (e : Env) (hw : e.windowRenderOk = true) :
    (Event.frameCreate e.windowWidth e.windowHeight ∈ (main_loop e).trace ↔
      (e.frameWidth ≠ e.windowWidth ∨ e.frameHeight ≠ e.windowHeight)) ∧
    ((e.frameWidth ≠ e.windowWidth ∨ e.frameHeight ≠ e.windowHeight) →
      e.frameCreateOk = true →
      Event.logResized e.windowWidth e.windowHeight ∈ (main_loop e).trace) ∧
    (e.frameWidth = e.windowWidth → e.frameHeight = e.windowHeight →
      (main_loop e).frameWidth = e.frameWidth ∧ (main_loop e).frameHeight = e.frameHeight ∧
      Event.frameCreate e.windowWidth e.windowHeight ∉ (main_loop e).trace) ∧
    (e.frameCreateOk = true →
      (e.frameWidth ≠ e.windowWidth ∨ e.frameHeight ≠ e.windowHeight) →
      (main_loop e).frameWidth = e.windowWidth ∧
      (main_loop e).frameHeight = e.windowHeight) := by
  by_cases hr : (e.frameWidth != e.windowWidth || e.frameHeight != e.windowHeight) = true
  · have hne : e.frameWidth ≠ e.windowWidth ∨ e.frameHeight ≠ e.windowHeight := by
      simpa [bne_iff_ne] using hr
    refine ⟨?_, ?_, ?_, ?_⟩
    · refine iff_of_true ?_ hne
      cases hc : e.frameCreateOk <;>
        simp [main_loop, hw, hr, hc, frameCreate_mem_loop_after_resize]
    · intro _ hc
      simp [main_loop, hw, hr, hc, logResized_mem_loop_after_resize]
    · intro h1 h2
      rcases hne with h | h
      · exact absurd h1 h
      · exact absurd h2 h
    · intro hc _
      simp [main_loop, hw, hr, hc, loop_after_resize_dims]
  · simp only [Bool.or_eq_true, bne_iff_ne, not_or, not_not] at hr
    obtain ⟨h1, h2⟩ := hr
    have hrb : (e.frameWidth != e.windowWidth || e.frameHeight != e.windowHeight) = false := by
      simp [h1, h2]
    refine ⟨?_, ?_, ?_, ?_⟩
    · refine iff_of_false ?_ ?_
      · simp [main_loop, hw, hrb, frameCreate_mem_loop_after_resize]
      · simp [h1, h2]
    · intro hne
      rcases hne with h | h
      · exact absurd h1 h
      · exact absurd h2 h
    · intro _ _
      refine ⟨?_, ?_, ?_⟩
      · simp [main_loop, hw, hrb, loop_after_resize_dims]
      · simp [main_loop, hw, hrb, loop_after_resize_dims]
      · simp [main_loop, hw, hrb, frameCreate_mem_loop_after_resize]
    · intro _ hne
      rcases hne with h | h
      · exact absurd h1 h
      · exact absurd h2 h

/-- C6 witness: a resizing frame (window grew to 1024x768) and, through the
theorem applied to env_ok, an unchanged frame. -/
def env_resize : Env :=
  { env_ok with windowWidth := 1024, windowHeight := 768 }

theorem frame_target_resize_contract_witness :
    Event.frameCreate 1024 768 ∈ (main_loop env_resize).trace ∧
    Event.logResized 1024 768 ∈ (main_loop env_resize).trace ∧
    Event.frameCreate 800 600 ∉ (main_loop env_ok).trace ∧
    (main_loop env_ok).frameWidth = 800 :=
  ⟨(frame_target_resize_contract env_resize rfl).1.mpr (Or.inl (by decide)),
   (frame_target_resize_contract env_resize rfl).2.1 (Or.inl (by decide)) rfl,
   ((frame_target_resize_contract env_ok rfl).2.2.1 rfl rfl).2.2,
   ((frame_target_resize_contract env_ok rfl).2.2.1 rfl rfl).1⟩

/-- C8: when target.begin fails, the background draw, the canvas draw and
the end call are all skipped, and the iteration still proceeds to the
present call. -/
theorem begin_failure_skips_drawing (e : Env)
    (hw : e.windowRenderOk = true)
    (hf : e.frameWidth ≠ e.windowWidth ∨ e.frameHeight ≠ e.windowHeight → e.frameCreateOk = true)
    (hs : e.sceneCreateOk = true) (hm : e.managerUpdateOk = true)
    (hb : e.targetBeginOk = false) :
    Event.drawBackground ∉ (main_loop e).trace ∧
    Event.drawCanvas ∉ (main_loop e).trace ∧
    Event.targetEnd ∉ (main_loop e).trace ∧
    Event.windowPresent ∈ (main_loop e).trace := by
  rw [main_loop_trace e hw hf hs hm]
  unfold ok_trace resize_events texture_events drawing_events present_events
  split_ifs <;> simp_all

def env_begin_fail : Env := { env_ok with targetBeginOk := false }

theorem begin_failure_skips_drawing_witness :
    Event.drawBackground ∉ (main_loop env_begin_fail).trace ∧
    Event.drawCanvas ∉ (main_loop env_begin_fail).trace ∧
    Event.targetEnd ∉ (main_loop env_begin_fail).trace ∧
    Event.windowPresent ∈ (main_loop env_begin_fail).trace :=
  begin_failure_skips_drawing env_begin_fail rfl (fun h => by revert h; decide) rfl rfl rfl

/-- Frame environments exhibiting a device check failure and a scene
create failure, all other calls succeeding. -/
def env_device_fail : Env := { env_ok with deviceCheckOk := false }

def env_scene_fail : Env := { env_ok with sceneCreateOk := false }

/-- C1 counterexample: on a device-check failure the present call has
already been issued that iteration, and on a scene-create failure the run
loop stops after the failing iteration instead of continuing to the
scheduled next one. -/
theorem phase_failure_continues_counterexample :
    (main_loop env_device_fail).ok = false ∧
    Event.windowPresent ∈ (main_loop env_device_fail).trace ∧
    (main_loop env_scene_fail).ok = false ∧
    window_run [env_scene_fail, env_ok] = [(main_loop env_scene_fail).trace] := by
  decide

/-- C1 amended: a phase failure makes main_loop return false, which ends
the run loop immediately (the scheduled following iterations never
execute); for the failures that precede the present call (window.render,
frame target recreation, scene.create, scene_manager.update) no present
call is issued that iteration. -/
theorem phase_failure_aborts_run (e : Env) (rest : List Env) :
    ((main_loop e).ok = false → window_run (e :: rest) = [(main_loop e).trace]) ∧
    ((e.windowRenderOk = false ∨ e.sceneCreateOk = false ∨ e.managerUpdateOk = false ∨
        ((e.frameWidth ≠ e.windowWidth ∨ e.frameHeight ≠ e.windowHeight) ∧
          e.frameCreateOk = false)) →
      Event.windowPresent ∉ (main_loop e).trace ∧ (main_loop e).ok = false) := by
  constructor
  · intro h
    simp [window_run, h]
  · intro h
    constructor
    · rw [windowPresent_mem_main_loop]
      rintro ⟨hw, hcr, hs, hm⟩
      rcases h with h | h | h | ⟨hne, hc⟩
      · rw [h] at hw
        exact absurd hw (by simp)
      · rw [h] at hs
        exact absurd hs (by simp)
      · rw [h] at hm
        exact absurd hm (by simp)
      · have hb : (e.frameWidth != e.windowWidth || e.frameHeight != e.windowHeight) = true := by
          simpa [bne_iff_ne] using hne
        rw [hcr hb] at hc
        exact absurd hc (by simp)
    · rw [main_loop_ok]
      rcases h with h | h | h | ⟨hne, hc⟩
      · simp [h]
      · simp [h]
      · simp [h]
      · have hb : (e.frameWidth != e.windowWidth || e.frameHeight != e.windowHeight) = true := by
          simpa [bne_iff_ne] using hne
        simp [hb, hc]

theorem phase_failure_aborts_run_witness :
    window_run [env_scene_fail] = [(main_loop env_scene_fail).trace] ∧
    Event.windowPresent ∉ (main_loop env_scene_fail).trace :=
  ⟨(phase_failure_aborts_run env_scene_fail []).1 (by decide),
   ((phase_failure_aborts_run env_scene_fail []).2 (Or.inr (Or.inl rfl))).1⟩

/-- Observable actions of the streaming worker thread
(process_callback, main.py lines 272-275). -/
inductive WEvent where
  | proc
  | sleep (ms : Nat)
  | done
  deriving DecidableEq, Repr

/-- The streaming worker loop (main.py lines 272-275) over a finite
schedule of observations.  Each schedule entry is the pair of values the
scene manager returns this iteration: isTerminated and the result of
process.  While not terminated the worker calls process, sleeps 1000
microseconds when process reports no progress, and loops; on observing
termination it prints the final log line and exits. -/
def process_callback : List (Bool × Bool) → List WEvent
  | [] => []
  | obs :: rest =>
    if obs.1 then [WEvent.done]
    else WEvent.proc :: (if obs.2 then [] else [WEvent.sleep 1000]) ++ process_callback rest

/-- Checks that no process call appears after the termination log entry. -/
def no_proc_after_done : List WEvent → Bool
  | [] => true
  | WEvent.done :: r => r.all (fun ev => ev != WEvent.proc)
  | _ :: r => no_proc_after_done r

theorem process_callback_no_proc_after_done (obs : List (Bool × Bool)) :
    no_proc_after_done (process_callback obs) = true := by
  induction obs with
  | nil => rfl
  | cons o rest ih =>
    unfold process_callback
    by_cases h1 : o.1
    · simp [h1, no_proc_after_done]
    · by_cases h2 : o.2 <;> simp [h1, h2, no_proc_after_done, ih]

theorem process_callback_done_iff (obs : List (Bool × Bool)) :
    WEvent.done ∈ process_callback obs ↔ true ∈ obs.map Prod.fst := by
  induction obs with
  | nil => simp [process_callback]
  | cons o rest ih =>
    unfold process_callback
    by_cases h1 : o.1
    · simp [h1]
    · by_cases h2 : o.2 <;> simp [h1, h2, ih]

/-- C7: the worker exits exactly when it observes the terminated flag; on
every non-terminated iteration it calls process, continues regardless of
the process result, and sleeps the fixed 1000 microsecond backoff exactly
when process reports no progress. -/
theorem streaming_worker_contract :
    (∀ obs : List (Bool × Bool),
      (WEvent.done ∈ process_callback obs ↔ true ∈ obs.map Prod.fst)) ∧
    (∀ p : Bool, ∀ rest : List (Bool × Bool),
      WEvent.proc ∈ process_callback ((false, p) :: rest)) ∧
    (∀ rest : List (Bool × Bool),
      process_callback ((false, false) :: rest) =
        WEvent.proc :: WEvent.sleep 1000 :: process_callback rest) ∧
    (∀ rest : List (Bool × Bool),
      process_callback ((false, true) :: rest) =
        WEvent.proc :: process_callback rest) ∧
    (∀ p : Bool, ∀ rest : List (Bool × Bool),
      process_callback ((true, p) :: rest) = [WEvent.done]) := by
  refine ⟨process_callback_done_iff, ?_, ?_, ?_, ?_⟩
  · intro p rest
    simp [process_callback]
  · intro rest
    simp [process_callback]
  · intro rest
    simp [process_callback]
  · intro p rest
    simp [process_callback]

/-- Shutdown actions of main (main.py lines 495-510). -/
inductive SEvent where
  | terminate
  | finishCtx
  | clearScene
  | managerUpd
  | joinThread
  deriving DecidableEq, Repr

/-- Scheduler-side shutdown state: the terminated flag of the scene
manager plus the trace of shutdown actions performed so far. -/
structure ShutdownState where
  terminated : Bool
  events : List SEvent
  deriving DecidableEq, Repr

/-- scene_manager.terminate (main.py line 496): sets the terminated flag. -/
def sm_terminate (s : ShutdownState) : ShutdownState :=
  { terminated := true, events := s.events ++ [SEvent.terminate] }

/-- window.finish (main.py lines 499 and 504). -/
def window_finish (s : ShutdownState) : ShutdownState :=
  { s with events := s.events ++ [SEvent.finishCtx] }

/-- scene.clear (main.py line 502). -/
def scene_clear (s : ShutdownState) : ShutdownState :=
  { s with events := s.events ++ [SEvent.clearScene] }

/-- Final scene_manager.update (main.py line 503). -/
def manager_update_final (s : ShutdownState) : ShutdownState :=
  { s with events := s.events ++ [SEvent.managerUpd] }

/-- thread.join (main.py line 507). -/
def thread_join (s : ShutdownState) : ShutdownState :=
  { s with events := s.events ++ [SEvent.joinThread] }

/-- The shutdown sequence of main after window.run returns
(main.py lines 495-510), starting from a not-yet-terminated manager. -/
def main_shutdown : ShutdownState :=
  thread_join (window_finish (manager_update_final (scene_clear
    (window_finish (sm_terminate ⟨false, []⟩)))))

/-- C5: shutdown performs terminate, finish, clear, final update, finish,
join in exactly that order, the terminated flag is set strictly before the
join, and the worker issues no process call after it observes the
terminated flag. -/
theorem shutdown_sequence_contract :
    main_shutdown.events =
      [SEvent.terminate, SEvent.finishCtx, SEvent.clearScene, SEvent.managerUpd,
       SEvent.finishCtx, SEvent.joinThread] ∧
    main_shutdown.events.indexOf SEvent.terminate <
      main_shutdown.events.indexOf SEvent.joinThread ∧
    main_shutdown.terminated = true ∧
    (∀ obs : List (Bool × Bool),
      no_proc_after_done (process_callback obs) = true) :=
  ⟨by decide, by decide, by decide, process_callback_no_proc_after_done⟩

/-- Vertex count of create_mesh (main.py line 40). -/
def create_mesh_num_vertices (sx sy : Nat) : Nat := (sx + 1) * (sy + 1)

/-- Index count of create_mesh (main.py line 67). -/
def create_mesh_num_indices (sx sy : Nat) : Nat := sx * sy * 4

/-- The vertices written by the vertex loop of create_mesh (main.py lines
49-61), as the list of running vertex counters, one per (j, i) pair. -/
def create_mesh_vertex_writes (sx sy : Nat) : List Nat :=
  (List.range (sy + 1)).flatMap (fun j =>
    (List.range (sx + 1)).map (fun i => (sx + 1) * j + i))

/-- The quad indices emitted by the index loop of create_mesh (main.py
lines 71-76): for each cell (j, i) the four corners vertex, vertex + 1,
vertex + steps.x + 2, vertex + steps.x + 1 with
vertex = (steps.x + 1) * j + i. -/
def create_mesh_indices (sx sy : Nat) : List Nat :=
  (List.range sy).flatMap (fun j =>
    (List.range sx).flatMap (fun i =>
      [(sx + 1) * j + i, (sx + 1) * j + i + 1,
       (sx + 1) * j + i + sx + 2, (sx + 1) * j + i + sx + 1]))

/-- Index formats of the binding library. -/
inductive IndexFormat where
  | ru16
  | ru32
  deriving DecidableEq, Repr

/-- Maxu16 constant of the binding library. -/
def Maxu16 : Nat := 65535

/-- Index format choice of create_mesh (main.py line 68). -/
def create_mesh_indices_format (sx sy : Nat) : IndexFormat :=
  if create_mesh_num_vertices sx sy < Maxu16 then IndexFormat.ru16 else IndexFormat.ru32

theorem create_mesh_vertex_writes_length (sx sy : Nat) :
    (create_mesh_vertex_writes sx sy).length = create_mesh_num_vertices sx sy := by
  unfold create_mesh_vertex_writes create_mesh_num_vertices
  rw [List.length_flatMap]
  have h : List.map (List.length ∘ fun j => (List.range (sx + 1)).map
      (fun i => (sx + 1) * j + i)) (List.range (sy + 1)) =
      List.replicate (sy + 1) (sx + 1) := by
    rw [List.eq_replicate_iff]
    refine ⟨by simp, ?_⟩
    intro b hb
    simp only [List.mem_map] at hb
    obtain ⟨j, _, hj⟩ := hb
    simp [← hj]
  rw [h, List.sum_replicate, smul_eq_mul, Nat.mul_comm]

theorem create_mesh_indices_length (sx sy : Nat) :
    (create_mesh_indices sx sy).length = create_mesh_num_indices sx sy := by
  unfold create_mesh_indices create_mesh_num_indices
  rw [List.length_flatMap]
  have h : List.map (List.length ∘ fun j => (List.range sx).flatMap (fun i =>
      [(sx + 1) * j + i, (sx + 1) * j + i + 1,
       (sx + 1) * j + i + sx + 2, (sx + 1) * j + i + sx + 1])) (List.range sy) =
      List.replicate sy (sx * 4) := by
    rw [List.eq_replicate_iff]
    refine ⟨by simp, ?_⟩
    intro b hb
    simp only [List.mem_map] at hb
    obtain ⟨j, _, hj⟩ := hb
    subst hj
    simp only [Function.comp_apply, List.length_flatMap]
    have h2 : List.map (List.length ∘ fun i =>
        [(sx + 1) * j + i, (sx + 1) * j + i + 1,
         (sx + 1) * j + i + sx + 2, (sx + 1) * j + i + sx + 1]) (List.range sx) =
        List.replicate sx 4 := by
      rw [List.eq_replicate_iff]
      refine ⟨by simp, ?_⟩
      intro b hb
      simp only [List.mem_map] at hb
      obtain ⟨i, _, hi⟩ := hb
      simp [← hi]
    rw [h2, List.sum_replicate, smul_eq_mul]
  rw [h, List.sum_replicate, smul_eq_mul]
  ring

theorem create_mesh_indices_bound (sx sy : Nat) :
    ∀ k ∈ create_mesh_indices sx sy, k < create_mesh_num_vertices sx sy := by
  intro k hk
  unfold create_mesh_indices at hk
  simp only [List.mem_flatMap, List.mem_range] at hk
  obtain ⟨j, hj, i, hi, hk⟩ := hk
  have hj1 : (sx + 1) * (j + 1) ≤ (sx + 1) * sy := Nat.mul_le_mul_left _ hj
  have hexp : (sx + 1) * (j + 1) = (sx + 1) * j + (sx + 1) := by ring
  have hv : create_mesh_num_vertices sx sy = (sx + 1) * sy + sx + 1 := by
    unfold create_mesh_num_vertices
    ring
  rw [hv]
  simp only [List.mem_cons, List.not_mem_nil, or_false] at hk
  rcases hk with h | h | h | h <;> subst h <;> omega

/-- C9: for steps.x and steps.y at least 1, create_mesh writes exactly
(steps.x + 1) * (steps.y + 1) vertices and steps.x * steps.y * 4 quad
indices, every emitted index addresses an existing vertex, and the index
format is 16 bit exactly when the vertex count is below Maxu16. -/
theorem create_mesh_contract (sx sy : Nat) (hx : 1 ≤ sx) (hy : 1 ≤ sy) :
    (create_mesh_vertex_writes sx sy).length = (sx + 1) * (sy + 1) ∧
    (create_mesh_indices sx sy).length = sx * sy * 4 ∧
    (∀ k ∈ create_mesh_indices sx sy, k < create_mesh_num_vertices sx sy) ∧
    (create_mesh_indices_format sx sy = IndexFormat.ru16 ↔
      create_mesh_num_vertices sx sy < Maxu16) :=
  ⟨create_mesh_vertex_writes_length sx sy,
   create_mesh_indices_length sx sy,
   create_mesh_indices_bound sx sy,
   by unfold create_mesh_indices_format
      split
      · simp_all
      · simp_all⟩

theorem create_mesh_contract_witness :
    1 ≤ 2 ∧ 1 ≤ 3 ∧
    ((create_mesh_vertex_writes 2 3).length = 3 * 4 ∧
     (create_mesh_indices 2 3).length = 2 * 3 * 4 ∧
     (∀ k ∈ create_mesh_indices 2 3, k < create_mesh_num_vertices 2 3) ∧
     (create_mesh_indices_format 2 3 = IndexFormat.ru16 ↔
       create_mesh_num_vertices 2 3 < Maxu16)) :=
  ⟨by decide, by decide, create_mesh_contract 2 3 (by decide) (by decide)⟩

/-- Integer pattern value of create_image (main.py line 110) before the
division by 63: (((x - (frame xor y)) xor (y + (frame xor x))) and 255),
computed on arbitrary precision two complement integers exactly as
Python computes it. -/
def image_pattern (frame x y : Nat) : Int :=
  Int.land (Int.xor ((x : Int) - Int.xor (frame : Int) (y : Int))
    ((y : Int) + Int.xor (frame : Int) (x : Int))) 255

/-- Python int() truncation toward zero, on an exact real value. -/
noncomputable def pytrunc (r : Real) : Int :=
  if 0 ≤ r then ⌊r⌋ else ⌈r⌉

/-- One colour channel of create_image (main.py lines 111-113):
int(cos(pi * a + v) * 127.5 + 127.5), the float arithmetic of the source
idealised to exact real arithmetic. -/
noncomputable def image_channel (a v : Real) : Int :=
  pytrunc (Real.cos (Real.pi * a + v) * 127.5 + 127.5)

/-- Pixel colour record.  ImageColor(255) initialises every channel,
including alpha, to 255 (main.py line 107); the fill loop overwrites only
r, g and b. -/
structure PixelColor where
  r : Int
  g : Int
  b : Int
  a : Int

/-- The pixel written by create_image at (x, y) (main.py lines 108-114). -/
noncomputable def image_pixel (frame x y : Nat) : PixelColor :=
  let v : Real := (image_pattern frame x y : Real) / 63.0
  { r := image_channel 1.0 v, g := image_channel 0.5 v,
    b := image_channel 0.0 v, a := 255 }

/-- The image produced by create_image (main.py lines 97-116), as the
size x size pixel matrix the fill loop writes, row major. -/
noncomputable def create_image (size frame : Nat) : List (List PixelColor) :=
  (List.range size).map (fun y => (List.range size).map (fun x => image_pixel frame x y))

theorem image_channel_range (a v : Real) :
    0 ≤ image_channel a v ∧ image_channel a v ≤ 255 := by
  unfold image_channel pytrunc
  have hc1 : -1 ≤ Real.cos (Real.pi * a + v) := Real.neg_one_le_cos _
  have hc2 : Real.cos (Real.pi * a + v) ≤ 1 := Real.cos_le_one _
  have h0 : (0 : Real) ≤ Real.cos (Real.pi * a + v) * 127.5 + 127.5 := by nlinarith
  have h255 : Real.cos (Real.pi * a + v) * 127.5 + 127.5 ≤ 255 := by nlinarith
  rw [if_pos h0]
  refine ⟨Int.floor_nonneg.mpr h0, ?_⟩
  have h := Int.floor_le_floor (α := Real) h255
  have h2 : ⌊(255 : Real)⌋ = 255 := by norm_num
  omega

/-- C10: create_image is a deterministic function of size and frame alone
(equal arguments give pixel for pixel identical images), every red, green
and blue channel value lies in [0, 255], and the alpha channel stays
255. -/
theorem create_image_deterministic_and_bounded :
    (∀ s1 f1 s2 f2 : Nat, s1 = s2 → f1 = f2 →
      create_image s1 f1 = create_image s2 f2) ∧
    (∀ frame x y : Nat,
      0 ≤ (image_pixel frame x y).r ∧ (image_pixel frame x y).r ≤ 255 ∧
      0 ≤ (image_pixel frame x y).g ∧ (image_pixel frame x y).g ≤ 255 ∧
      0 ≤ (image_pixel frame x y).b ∧ (image_pixel frame x y).b ≤ 255 ∧
      (image_pixel frame x y).a = 255) := by
  constructor
  · intro s1 f1 s2 f2 hs hf
    rw [hs, hf]
  · intro frame x y
    unfold image_pixel
    refine ⟨(image_channel_range _ _).1, (image_channel_range _ _).2,
            (image_channel_range _ _).1, (image_channel_range _ _).2,
            (image_channel_range _ _).1, (image_channel_range _ _).2, rfl⟩

theorem create_image_deterministic_and_bounded_witness :
    create_image 128 7 = create_image 128 7 ∧ (image_pixel 7 1 2).a = 255 :=
  ⟨create_image_deterministic_and_bounded.1 128 7 128 7 rfl rfl,
   (create_image_deterministic_and_bounded.2 7 1 2).2.2.2.2.2.2⟩
